import Mathlib

/-!
Shallow embedding of `dropbot_dx_plugin` (src/__init__.py): the step
execution coordinator of the DropBot DX MicroDrop plugin. The embedding
models the mutable plugin fields (`timeout_id`, `dstat_remote`,
`dropbot_dx_remote`), the `on_step_run` handler, the `remote_check_tick`
poll callback, `connect` (with the firmware-flash re-entry) and
`on_plugin_disable`. External collaborators (the board proxy, the
DstatRemote session, the gobject timer service, the GUI) are modelled by
their observable interactions: each handler returns the list of observable
events it performs (board `update_state` calls, `emit_signal` of
`on_step_complete`, timer cancellation/registration, session `reset`), and the
results of external calls are inputs supplied through an environment record.
-/

namespace DropbotDx

/-- Outcome argument of the `on_step_complete` signal: Python `None` is
`Option.none`, the strings `'Repeat'` and `'Fail'` are `some "Repeat"` and
`some "Fail"`. -/
abbrev Outcome := Option String

/-- One invocation of `update_state` on the DropBot DX board proxy. `magnet`
is `none` when the `magnet_engaged` keyword is not passed, as in
`update_state(light_enabled=True)` (src/__init__.py line 257). -/
structure BoardCall where
  light : Bool
  magnet : Option Bool
deriving DecidableEq

/-- The mutable fields of `DropbotDxPlugin` that the coordinator reads and
writes (src/__init__.py lines 104-109): `timeout_id` is the gobject timer
handle, `dstat_remote` the `DstatRemote` session (identified here by a
numeric id), `dropbot_dx_remote` the board proxy handle (numeric id). -/
structure PluginState where
  timeout_id : Option Nat
  dstat_remote : Option Nat
  dropbot_dx_remote : Option Nat
deriving DecidableEq

/-- `connected()` (src/__init__.py lines 111-112): true iff
`dropbot_dx_remote` is not `None`. -/
def PluginState.connected (s : PluginState) : Bool :=
  s.dropbot_dx_remote.isSome

/-- Per-step options from the `StepFields` form (src/__init__.py
lines 99-102). -/
structure StepOptions where
  magnet_engaged : Bool
  dstat_enabled : Bool
deriving DecidableEq

/-- Results of the external calls a single `on_step_run` may make:
`update_state_ok` is the return value of the board `update_state` call;
`create_ok` and `start_ok` tell whether the `DstatRemote` constructor and
`start_acquisition()` succeed (`false` models a raised exception);
`session_id` is the identity of the freshly constructed session and
`new_handle` the handle returned by `gobject.timeout_add`. -/
structure StepEnv where
  update_state_ok : Bool
  create_ok : Bool
  start_ok : Bool
  session_id : Nat
  new_handle : Nat
deriving DecidableEq

/-- Observable actions of one `on_step_run` call, in program order:
a board `update_state` call, an `emit_signal` of `on_step_complete`,
a `gobject.source_remove` of a timer handle, a `gobject.timeout_add`
returning a new handle. -/
inductive StepEvent where
  | board (c : BoardCall)
  | emit (o : Outcome)
  | cancel (h : Nat)
  | register (h : Nat)
deriving DecidableEq

/-- Result of `on_step_run`: the plugin state afterwards, and the events
performed, in order. -/
structure StepRunResult where
  state : PluginState
  events : List StepEvent
deriving DecidableEq

/-- The outcomes emitted via `on_step_complete` during a `on_step_run` call,
in order. -/
def stepEmitted (r : StepRunResult) : List Outcome :=
  r.events.filterMap fun e =>
    match e with
    | .emit o => some o
    | _ => none

/-- The timer handles passed to `gobject.source_remove` during the call. -/
def stepCancelled (r : StepRunResult) : List Nat :=
  r.events.filterMap fun e =>
    match e with
    | .cancel h => some h
    | _ => none

/-- The timer handles returned by `gobject.timeout_add` during the call. -/
def stepRegistered (r : StepRunResult) : List Nat :=
  r.events.filterMap fun e =>
    match e with
    | .register h => some h
    | _ => none

/-- The board `update_state` calls made during the call, in order. -/
def stepBoardCalls (r : StepRunResult) : List BoardCall :=
  r.events.filterMap fun e =>
    match e with
    | .board c => some c
    | _ => none

/-- `DropbotDxPlugin.on_step_run` (src/__init__.py lines 187-243).
If connected: call `update_state(light_enabled=not dstat_enabled,
magnet_engaged=magnet_engaged)`; on a false return, emit `Fail` and fall
through. Then, if `dstat_enabled`: inside the `try`, remove the previous
timer if `timeout_id` is set (the field itself is not cleared), construct
`DstatRemote` and call `start_acquisition` (an exception in either lands in
the bare `except`, which emits `Fail` and registers no timer; note the
session field keeps the value it had at the point of the exception), else
register the 100 ms poll timer and store its handle. If `dstat_enabled` is
false, emit `None`. If not connected, only emit `None`. -/
def on_step_run (s : PluginState) (options : StepOptions) (env : StepEnv) :
    StepRunResult :=
  if s.connected then
    let c0 : BoardCall := ⟨!options.dstat_enabled, some options.magnet_engaged⟩
    let failPart : List StepEvent :=
      if env.update_state_ok then [] else [.emit (some "Fail")]
    if options.dstat_enabled then
      let cancelPart : List StepEvent :=
        match s.timeout_id with
        | some h => [.cancel h]
        | none => []
      if !env.create_ok then
        ⟨s, [.board c0] ++ failPart ++ cancelPart ++ [.emit (some "Fail")]⟩
      else if !env.start_ok then
        ⟨{ s with dstat_remote := some env.session_id },
         [.board c0] ++ failPart ++ cancelPart ++ [.emit (some "Fail")]⟩
      else
        ⟨{ s with dstat_remote := some env.session_id,
                  timeout_id := some env.new_handle },
         [.board c0] ++ failPart ++ cancelPart ++ [.register env.new_handle]⟩
    else
      ⟨s, [.board c0] ++ failPart ++ [.emit none]⟩
  else
    ⟨s, [.emit none]⟩

/-- Result of one `dstat_remote.acquisition_complete()` call inside a poll
tick: it returned `True` (with `light_ok` the return value of the subsequent
`update_state(light_enabled=True)`), returned `False`, or raised. -/
inductive PollResult where
  | complete (light_ok : Bool)
  | notComplete
  | raises
deriving DecidableEq

/-- Observable actions of one `remote_check_tick` call, in program order:
a `reset()` of the session, a board `update_state` call, an `emit_signal`
of `on_step_complete`. -/
inductive TickEvent where
  | reset
  | board (c : BoardCall)
  | emit (o : Outcome)
deriving DecidableEq

/-- Result of `remote_check_tick`: the plugin state afterwards, the events
performed in order, and the Python return value (`true` keeps the gobject
timer registered, `false` deregisters it). -/
structure TickResult where
  state : PluginState
  events : List TickEvent
  reschedule : Bool
deriving DecidableEq

/-- The outcomes emitted via `on_step_complete` during a tick, in order. -/
def tickEmitted (t : TickResult) : List Outcome :=
  t.events.filterMap fun e =>
    match e with
    | .emit o => some o
    | _ => none

/-- The board `update_state` calls made during a tick, in order. -/
def tickBoardCalls (t : TickResult) : List BoardCall :=
  t.events.filterMap fun e =>
    match e with
    | .board c => some c
    | _ => none

/-- The number of session `reset()` calls made during a tick. -/
def tickResets (t : TickResult) : Nat :=
  t.events.count TickEvent.reset

/-- `DropbotDxPlugin.remote_check_tick` (src/__init__.py lines 245-274).
If `dstat_remote` is `None`, fall through to the final `return True`.
Otherwise call `acquisition_complete()`: on `True`, call `reset()`, call
`update_state(light_enabled=True)` and raise `IOError` if it returns false
(caught by the bare `except`, which emits `Fail`); if it returns true emit
`None`; in both of these paths clear `timeout_id` and `dstat_remote` and
return `False`. On `False`, print a waiting message and return `True`.
If `acquisition_complete()` raises, the `except` clause emits `Fail`,
clears both fields and returns `False`. -/
def remote_check_tick (s : PluginState) (r : PollResult) : TickResult :=
  match s.dstat_remote with
  | none => ⟨s, [], true⟩
  | some _ =>
    match r with
    | .complete light_ok =>
      ⟨{ s with timeout_id := none, dstat_remote := none },
       [.reset, .board ⟨true, none⟩,
        .emit (if light_ok then none else some "Fail")], false⟩
    | .notComplete => ⟨s, [], true⟩
    | .raises =>
      ⟨{ s with timeout_id := none, dstat_remote := none },
       [.emit (some "Fail")], false⟩

/-- Runs `remote_check_tick` repeatedly, as the gobject timer service does:
each tick consumes one `PollResult` from the script; ticking stops when the
callback returns `False` or the script is exhausted. Returns the final state
and the outcomes emitted over all ticks. -/
def runTicks : PluginState → List PollResult → PluginState × List Outcome
  | s, [] => (s, [])
  | s, r :: rs =>
    let t := remote_check_tick s r
    if t.reschedule then
      let p := runTicks t.state rs
      (p.1, tickEmitted t ++ p.2)
    else
      (t.state, tickEmitted t)

/-- One full step execution: `on_step_run`, followed by the poll ticks of the
timer it registered (if it registered one), driven by `script`. Returns the
final state and all outcomes emitted for the step, in order. -/
def run_full_step (s : PluginState) (options : StepOptions) (env : StepEnv)
    (script : List PollResult) : PluginState × List Outcome :=
  let r := on_step_run s options env
  if (stepRegistered r).isEmpty then
    (r.state, stepEmitted r)
  else
    let p := runTicks r.state script
    (p.1, stepEmitted r ++ p.2)

/-- A poll script settles when some tick's `acquisition_complete()` call does
not simply return `False`: the poll loop driven by it reaches a terminal
tick before the script runs out. -/
def settles (script : List PollResult) : Bool :=
  script.any fun r => r != PollResult.notComplete

/-- The environment of one entry into `connect` (src/__init__.py
lines 114-132): whether `dx.SerialProxy()` succeeds (`false` models the
`IOError` the `except` clause catches), the identity of the new board proxy,
the two software versions compared on line 121, and the user's answer to
the firmware-update prompt. -/
structure ConnectEnv where
  serial_ok : Bool
  board_id : Nat
  host_version : Nat
  remote_version : Nat
  response_yes : Bool
deriving DecidableEq

/-- An uncaught Python exception escaping `connect` (only `IOError` is
caught there). `attributeError` models calling a method on `None`. -/
inductive PyErr where
  | attributeError
deriving DecidableEq

/-- `DropbotDxPlugin.connect` (src/__init__.py lines 114-132) together with
the `on_flash_firmware` re-entry (lines 134-146). One `ConnectEnv` is
consumed per entry into `connect`; the recursive re-entry after a firmware
flash consumes the tail (an empty list means the re-entry makes no attempt).
On `SerialProxy` failure the `IOError` is caught: the state is unchanged and
a warning is logged (the returned `Bool`). On success the proxy handle is
stored; on version mismatch with an affirmative answer, `on_flash_firmware`
clears the handle, flashes, and re-enters `connect`; afterwards the outer
`connect` resumes at `self.dropbot_dx_remote.update_state(light_enabled=True)`
(line 130), which raises an uncaught `AttributeError` when the re-entry left
the handle `None` (`except IOError` does not catch it). -/
def connect : PluginState → List ConnectEnv → Except PyErr (PluginState × Bool)
  | s, [] => .ok (s, false)
  | s, e :: rest =>
    if e.serial_ok then
      let s1 : PluginState := { s with dropbot_dx_remote := some e.board_id }
      if (e.remote_version != e.host_version) && e.response_yes then
        match connect { s1 with dropbot_dx_remote := none } rest with
        | .error err => .error err
        | .ok (s2, w) =>
          match s2.dropbot_dx_remote with
          | none => .error .attributeError
          | some _ => .ok (s2, w)
      else
        .ok (s1, false)
    else
      .ok (s, true)

/-- `DropbotDxPlugin.on_plugin_disable` (src/__init__.py lines 178-181):
calls `terminate()` on the board proxy iff connected (the returned `Bool`
records whether `terminate` was invoked) and hides the tools menu item (a
GUI widget, outside the modelled state). It never writes any of the three
modelled fields; in particular `dropbot_dx_remote` is not cleared. -/
def on_plugin_disable (s : PluginState) : PluginState × Bool :=
  (s, s.connected)

/-! Helper lemmas shared by several claim theorems. -/

/-- When the board is connected, the first observable action of
`on_step_run` is the `update_state` call with `light_enabled = not
dstat_enabled` and `magnet_engaged = magnet_engaged`. -/
theorem on_step_run_connected_head (s : PluginState) (options : StepOptions)
    (env : StepEnv) (hc : s.connected = true) :
    (on_step_run s options env).events.head?
      = some (.board ⟨!options.dstat_enabled, some options.magnet_engaged⟩) := by
  obtain ⟨tid, sdr, bdr⟩ := s
  obtain ⟨b, rfl⟩ := Option.isSome_iff_exists.mp hc
  obtain ⟨mag, dst⟩ := options
  obtain ⟨uok, cok, sok, sid, nh⟩ := env
  cases dst <;> cases uok <;> cases cok <;> cases sok <;> cases tid <;> rfl

/-- Once a session is live, a settling poll script emits exactly one outcome
over the whole tick loop. -/
theorem runTicks_settles_length (script : List PollResult) :
    ∀ tid x bdr, settles script = true →
      (runTicks ⟨tid, some x, bdr⟩ script).2.length = 1 := by
  induction script with
  | nil =>
    intro tid x bdr hset
    simp [settles] at hset
  | cons r rs ih =>
    intro tid x bdr hset
    cases r with
    | complete light_ok => rfl
    | raises => rfl
    | notComplete =>
      have hset' : settles rs = true := by simpa [settles] using hset
      simpa [runTicks, remote_check_tick, tickEmitted] using ih tid x bdr hset'

/-! Claim theorems. -/

/-- C1 (counterexample): with the board connected, `update_state` returning
false and `dstat_enabled` false, one step execution emits two outcomes —
`Fail` from the failed state-apply and then `None` from the
acquisition-disabled branch — so `on_step_complete` is not emitted exactly
once on every branch combination. -/
theorem c1_two_outcomes_cex :
    (run_full_step ⟨none, none, some 0⟩ ⟨false, false⟩
        ⟨false, true, true, 7, 11⟩ []).2 = [some "Fail", none]
    ∧ ¬ (run_full_step ⟨none, none, some 0⟩ ⟨false, false⟩
        ⟨false, true, true, 7, 11⟩ []).2.length = 1 := by
  decide

/-- C1 (amended): in every step execution in which the board state-apply
does not fail (the board is disconnected, or `update_state` returns true),
and whose poll script settles, `on_step_complete` is emitted exactly once
across `on_step_run` and the poll ticks it schedules. When the state-apply
fails, `Fail` is emitted and the fall-through then produces a second
outcome for the same step. -/
theorem c1_exactly_once (s : PluginState) (options : StepOptions)
    (env : StepEnv) (script : List PollResult)
    (hok : s.connected = true → env.update_state_ok = true)
    (hset : settles script = true) :
    (run_full_step s options env script).2.length = 1 := by
  obtain ⟨tid, sdr, bdr⟩ := s
  cases bdr with
  | none => rfl
  | some b =>
    have hok' := hok rfl
    obtain ⟨mag, dst⟩ := options
    obtain ⟨uok, cok, sok, sid, nh⟩ := env
    subst hok'
    cases dst with
    | false => cases tid <;> rfl
    | true =>
      cases cok with
      | false => cases tid <;> rfl
      | true =>
        cases sok with
        | false => cases tid <;> rfl
        | true =>
          cases tid <;>
            simpa [run_full_step, on_step_run, stepEmitted, stepRegistered,
                   List.isEmpty] using
              runTicks_settles_length script (some nh) sid (some b) hset

/-- C1 witness. -/
theorem c1_exactly_once_witness :
    (run_full_step ⟨none, none, some 0⟩ ⟨true, true⟩ ⟨true, true, true, 7, 11⟩
        [PollResult.notComplete, PollResult.complete true]).2.length = 1 :=
  c1_exactly_once ⟨none, none, some 0⟩ ⟨true, true⟩ ⟨true, true, true, 7, 11⟩
    [PollResult.notComplete, PollResult.complete true]
    (fun _ => rfl) (by decide)

/-- C2 (counterexample): `on_step_run` executed while the previous step's
poll timer handle (5) is still registered, with the board connected and
`dstat_enabled` false, removes no timer handle and leaves the handle
registered — the board-disconnected and acquisition-disabled branches never
cancel, refuting cancellation in every branch. -/
theorem c2_no_cancel_cex :
    (⟨some 5, some 9, some 0⟩ : PluginState).timeout_id = some 5
    ∧ stepCancelled (on_step_run ⟨some 5, some 9, some 0⟩ ⟨false, false⟩
        ⟨true, true, true, 7, 11⟩) = []
    ∧ (on_step_run ⟨some 5, some 9, some 0⟩ ⟨false, false⟩
        ⟨true, true, true, 7, 11⟩).state.timeout_id = some 5 := by
  decide

/-- C2 (amended): the prior step's timer handle is cancelled only in the
acquisition-enabled branch of `on_step_run`, where it is cancelled before
the new timer is registered; in the board-disconnected and
acquisition-disabled branches no cancellation occurs, the prior handle is
left registered, and no new timer is registered (so no second timer is
created there either). -/
theorem c2_cancel_only_in_acquire_branch (s : PluginState)
    (options : StepOptions) (env : StepEnv) :
    (s.connected = false ∨ options.dstat_enabled = false →
       stepCancelled (on_step_run s options env) = []
       ∧ stepRegistered (on_step_run s options env) = []
       ∧ (on_step_run s options env).state.timeout_id = s.timeout_id)
    ∧ (∀ h, s.connected = true → options.dstat_enabled = true →
         s.timeout_id = some h →
         stepCancelled (on_step_run s options env) = [h])
    ∧ (∀ h, s.connected = true → options.dstat_enabled = true →
         s.timeout_id = some h → env.create_ok = true → env.start_ok = true →
         (on_step_run s options env).events
           = [.board ⟨!options.dstat_enabled, some options.magnet_engaged⟩]
             ++ (if env.update_state_ok then [] else [.emit (some "Fail")])
             ++ [.cancel h, .register env.new_handle]) := by
  obtain ⟨tid, sdr, bdr⟩ := s
  obtain ⟨mag, dst⟩ := options
  obtain ⟨uok, cok, sok, sid, nh⟩ := env
  refine ⟨?_, ?_, ?_⟩
  · rintro (hc | hd)
    · cases bdr with
      | none => cases dst <;> cases uok <;> cases cok <;> cases sok <;>
          cases tid <;> exact ⟨rfl, rfl, rfl⟩
      | some b => simp [PluginState.connected] at hc
    · subst hd
      cases bdr <;> cases uok <;> cases tid <;> exact ⟨rfl, rfl, rfl⟩
  · intro h hc hd htid
    obtain ⟨b, rfl⟩ := Option.isSome_iff_exists.mp hc
    subst hd
    cases htid
    cases uok <;> cases cok <;> cases sok <;> rfl
  · intro h hc hd htid hcok hsok
    obtain ⟨b, rfl⟩ := Option.isSome_iff_exists.mp hc
    subst hd
    cases htid
    subst hcok
    subst hsok
    cases uok <;> rfl

/-- C2 witness. -/
theorem c2_cancel_only_in_acquire_branch_witness :
    stepCancelled (on_step_run ⟨some 5, some 9, some 0⟩ ⟨false, true⟩
        ⟨true, true, true, 7, 11⟩) = [5] :=
  (c2_cancel_only_in_acquire_branch ⟨some 5, some 9, some 0⟩ ⟨false, true⟩
      ⟨true, true, true, 7, 11⟩).2.1 5 rfl rfl rfl

/-- C3 (confirmed): with the board connected, the first action of
`on_step_run` is the `update_state` call with `light_enabled = not
dstat_enabled` and `magnet_engaged = magnet_engaged`; when that call
returns false, the first emitted outcome is `Fail`, and the rest of the
execution — final state included — is exactly what it would have been had
the call succeeded: the `Fail` emission is inserted right after the board
call, and the `dstat_enabled` check is still reached. -/
theorem c3_state_apply_and_fallthrough (s : PluginState)
    (options : StepOptions) (env : StepEnv) (hc : s.connected = true) :
    (on_step_run s options env).events.head?
      = some (.board ⟨!options.dstat_enabled, some options.magnet_engaged⟩)
    ∧ (env.update_state_ok = false →
        (stepEmitted (on_step_run s options env)).head? = some (some "Fail")
        ∧ (on_step_run s options env).state
            = (on_step_run s options { env with update_state_ok := true }).state
        ∧ (on_step_run s options env).events
            = (on_step_run s options
                { env with update_state_ok := true }).events.take 1
              ++ [.emit (some "Fail")]
              ++ (on_step_run s options
                { env with update_state_ok := true }).events.drop 1) := by
  refine ⟨on_step_run_connected_head s options env hc, ?_⟩
  intro hfail
  obtain ⟨tid, sdr, bdr⟩ := s
  obtain ⟨b, rfl⟩ := Option.isSome_iff_exists.mp hc
  obtain ⟨mag, dst⟩ := options
  obtain ⟨uok, cok, sok, sid, nh⟩ := env
  subst hfail
  cases dst <;> cases cok <;> cases sok <;> cases tid <;>
    exact ⟨rfl, rfl, rfl⟩

/-- C3 witness. -/
theorem c3_state_apply_and_fallthrough_witness :
    (on_step_run ⟨none, none, some 0⟩ ⟨true, false⟩
        ⟨false, true, true, 7, 11⟩).events.head?
      = some (.board ⟨!(⟨true, false⟩ : StepOptions).dstat_enabled, some true⟩)
    ∧ (stepEmitted (on_step_run ⟨none, none, some 0⟩ ⟨true, false⟩
        ⟨false, true, true, 7, 11⟩)).head? = some (some "Fail") :=
  ⟨(c3_state_apply_and_fallthrough ⟨none, none, some 0⟩ ⟨true, false⟩
      ⟨false, true, true, 7, 11⟩ rfl).1,
   ((c3_state_apply_and_fallthrough ⟨none, none, some 0⟩ ⟨true, false⟩
      ⟨false, true, true, 7, 11⟩ rfl).2 rfl).1⟩

/-- C4 (counterexample): with the board connected and `dstat_enabled` true,
when the `DstatRemote` constructor succeeds (producing session 7) and
`start_acquisition` raises, `on_step_run` emits `Fail` and registers no
timer, but the coordinator's session reference is not cleared: it still
holds the failed session (7) afterwards. -/
theorem c4_session_not_cleared_cex :
    stepEmitted (on_step_run ⟨some 3, none, some 0⟩ ⟨false, true⟩
        ⟨true, true, false, 7, 11⟩) = [some "Fail"]
    ∧ stepRegistered (on_step_run ⟨some 3, none, some 0⟩ ⟨false, true⟩
        ⟨true, true, false, 7, 11⟩) = []
    ∧ ¬ (on_step_run ⟨some 3, none, some 0⟩ ⟨false, true⟩
        ⟨true, true, false, 7, 11⟩).state.dstat_remote = none := by
  decide

/-- C4 (amended): with the board connected and `dstat_enabled` true, if
creating the session or starting the acquisition raises, outcome `Fail` is
emitted (it is the last outcome of the call) and no poll timer is
registered for the step, but the session reference is not cleared: if the
constructor raised it keeps its prior value, and if `start_acquisition`
raised it holds the newly created (failed) session. -/
theorem c4_start_failure (s : PluginState) (options : StepOptions)
    (env : StepEnv) (hc : s.connected = true)
    (hd : options.dstat_enabled = true) :
    (env.create_ok = false →
       (stepEmitted (on_step_run s options env)).getLast? = some (some "Fail")
       ∧ stepRegistered (on_step_run s options env) = []
       ∧ (on_step_run s options env).state.dstat_remote = s.dstat_remote)
    ∧ (env.create_ok = true → env.start_ok = false →
       (stepEmitted (on_step_run s options env)).getLast? = some (some "Fail")
       ∧ stepRegistered (on_step_run s options env) = []
       ∧ (on_step_run s options env).state.dstat_remote
           = some env.session_id) := by
  obtain ⟨tid, sdr, bdr⟩ := s
  obtain ⟨b, rfl⟩ := Option.isSome_iff_exists.mp hc
  obtain ⟨mag, dst⟩ := options
  obtain ⟨uok, cok, sok, sid, nh⟩ := env
  subst hd
  constructor
  · intro hcok
    subst hcok
    cases uok <;> cases sok <;> cases tid <;> exact ⟨rfl, rfl, rfl⟩
  · intro hcok hsok
    subst hcok
    subst hsok
    cases uok <;> cases tid <;> exact ⟨rfl, rfl, rfl⟩

/-- C4 witness. -/
theorem c4_start_failure_witness :
    (stepEmitted (on_step_run ⟨some 3, none, some 0⟩ ⟨false, true⟩
        ⟨true, true, false, 7, 11⟩)).getLast? = some (some "Fail")
    ∧ stepRegistered (on_step_run ⟨some 3, none, some 0⟩ ⟨false, true⟩
        ⟨true, true, false, 7, 11⟩) = []
    ∧ (on_step_run ⟨some 3, none, some 0⟩ ⟨false, true⟩
        ⟨true, true, false, 7, 11⟩).state.dstat_remote = some 7 :=
  (c4_start_failure ⟨some 3, none, some 0⟩ ⟨false, true⟩
      ⟨true, true, false, 7, 11⟩ rfl rfl).2 rfl rfl

/-- C5 (confirmed): in a poll tick where `acquisition_complete()` returns
true, the tick performs exactly `reset()` followed by
`update_state(light_enabled=True)` followed by one emission — `None` when
the re-enable succeeds, `Fail` when it fails — and in either case the
session reference and the timer handle are cleared and the tick returns
false (does not reschedule). In particular `reset()` is called exactly
once. -/
theorem c5_complete_tick (s : PluginState) (x : Nat) (light_ok : Bool)
    (hs : s.dstat_remote = some x) :
    (remote_check_tick s (.complete light_ok)).events
      = [.reset, .board ⟨true, none⟩,
         .emit (if light_ok then none else some "Fail")]
    ∧ tickResets (remote_check_tick s (.complete light_ok)) = 1
    ∧ (remote_check_tick s (.complete light_ok)).state.dstat_remote = none
    ∧ (remote_check_tick s (.complete light_ok)).state.timeout_id = none
    ∧ (remote_check_tick s (.complete light_ok)).reschedule = false := by
  obtain ⟨tid, sdr, bdr⟩ := s
  simp only at hs
  subst hs
  cases light_ok <;> exact ⟨rfl, rfl, rfl, rfl, rfl⟩

/-- C5 witness. -/
theorem c5_complete_tick_witness :
    (remote_check_tick ⟨some 4, some 8, some 0⟩ (.complete false)).events
      = [.reset, .board ⟨true, none⟩,
         .emit (if false then none else some "Fail")]
    ∧ tickResets (remote_check_tick ⟨some 4, some 8, some 0⟩
        (.complete false)) = 1
    ∧ (remote_check_tick ⟨some 4, some 8, some 0⟩
        (.complete false)).state.dstat_remote = none
    ∧ (remote_check_tick ⟨some 4, some 8, some 0⟩
        (.complete false)).state.timeout_id = none
    ∧ (remote_check_tick ⟨some 4, some 8, some 0⟩
        (.complete false)).reschedule = false :=
  c5_complete_tick ⟨some 4, some 8, some 0⟩ 8 false rfl

/-- C6 (counterexample): in a poll tick where `acquisition_complete()`
raises, the coordinator emits `Fail` without making any board
`update_state` call — the bare `except` clause performs no light re-enable
— refuting the claimed best-effort re-apply before the `Fail`. -/
theorem c6_no_reapply_cex :
    tickBoardCalls (remote_check_tick ⟨some 4, some 8, some 0⟩ .raises) = []
    ∧ tickEmitted (remote_check_tick ⟨some 4, some 8, some 0⟩ .raises)
        = [some "Fail"] := by
  decide

/-- C6 (amended): in a poll tick where `acquisition_complete()` raises, the
coordinator emits outcome `Fail`, clears the session reference and the
timer handle, and does not reschedule — but it makes no board call at all:
no best-effort re-apply of `light_enabled=true` happens on this path. -/
theorem c6_poll_failure_tick (s : PluginState) (x : Nat)
    (hs : s.dstat_remote = some x) :
    (remote_check_tick s .raises).events = [.emit (some "Fail")]
    ∧ tickBoardCalls (remote_check_tick s .raises) = []
    ∧ (remote_check_tick s .raises).state.dstat_remote = none
    ∧ (remote_check_tick s .raises).state.timeout_id = none
    ∧ (remote_check_tick s .raises).reschedule = false := by
  obtain ⟨tid, sdr, bdr⟩ := s
  simp only at hs
  subst hs
  exact ⟨rfl, rfl, rfl, rfl, rfl⟩

/-- C6 witness. -/
theorem c6_poll_failure_tick_witness :
    (remote_check_tick ⟨some 4, some 8, some 0⟩ .raises).events
      = [.emit (some "Fail")]
    ∧ tickBoardCalls (remote_check_tick ⟨some 4, some 8, some 0⟩ .raises) = []
    ∧ (remote_check_tick
        ⟨some 4, some 8, some 0⟩ .raises).state.dstat_remote = none
    ∧ (remote_check_tick
        ⟨some 4, some 8, some 0⟩ .raises).state.timeout_id = none
    ∧ (remote_check_tick ⟨some 4, some 8, some 0⟩ .raises).reschedule = false :=
  c6_poll_failure_tick ⟨some 4, some 8, some 0⟩ 8 rfl

/-- C7 (counterexample): a poll tick that runs with the session reference
absent does not return the do-not-reschedule value (`False`): it falls
through to the final `return True`, keeping the timer registered. -/
theorem c7_reschedules_cex :
    ¬ (remote_check_tick ⟨some 4, none, some 0⟩ .raises).reschedule = false := by
  decide

/-- C7 (amended): a poll tick that runs when the session reference is
absent performs no action and returns `True` — the continue-rescheduling
value — to the timer service, rather than cancelling itself. -/
theorem c7_absent_session_continues (s : PluginState) (r : PollResult)
    (hs : s.dstat_remote = none) :
    (remote_check_tick s r).reschedule = true
    ∧ (remote_check_tick s r).events = [] := by
  obtain ⟨tid, sdr, bdr⟩ := s
  simp only at hs
  subst hs
  exact ⟨rfl, rfl⟩

/-- C7 witness. -/
theorem c7_absent_session_continues_witness :
    (remote_check_tick ⟨some 4, none, some 0⟩ .notComplete).reschedule = true
    ∧ (remote_check_tick ⟨some 4, none, some 0⟩ .notComplete).events = [] :=
  c7_absent_session_continues ⟨some 4, none, some 0⟩ .notComplete rfl

/-- C9 (confirmed): a poll tick that runs when the session reference is
absent emits no `on_step_complete` signal, makes no board or session call
(its event list is empty), and leaves the whole plugin state — session
reference and timer-handle field included — unchanged, so a stale timer
firing after its session was cleared cannot produce an outcome. -/
theorem c9_absent_session_frame (s : PluginState) (r : PollResult)
    (hs : s.dstat_remote = none) :
    (remote_check_tick s r).events = []
    ∧ (remote_check_tick s r).state = s := by
  obtain ⟨tid, sdr, bdr⟩ := s
  simp only at hs
  subst hs
  exact ⟨rfl, rfl⟩

/-- C9 witness. -/
theorem c9_absent_session_frame_witness :
    (remote_check_tick ⟨some 4, none, some 0⟩ .raises).events = []
    ∧ (remote_check_tick ⟨some 4, none, some 0⟩ .raises).state
        = ⟨some 4, none, some 0⟩ :=
  c9_absent_session_frame ⟨some 4, none, some 0⟩ .raises rfl

/-- C8 (counterexample): `connect()` can raise. Starting disconnected, the
first attempt opens the proxy (id 1) but finds a firmware mismatch
(remote 3 vs host 2) and the user affirms; `on_flash_firmware` clears the
handle and re-enters `connect`, whose attempt fails with the caught
`IOError`; back in the outer `connect`, line 130 then calls
`update_state` on the `None` handle, and the resulting `AttributeError` is
not an `IOError`, so it propagates to the caller. -/
theorem c8_connect_raises_cex :
    connect ⟨none, none, none⟩ [⟨true, 1, 2, 3, true⟩, ⟨false, 0, 0, 0, false⟩]
      = .error .attributeError := rfl

/-- C8 (amended): `connect()` raises no exception whenever the
firmware-flash path is not taken: on transport failure (`SerialProxy`
raising `IOError`) it returns normally with the state unchanged — so a
disconnected link stays disconnected — and a warning logged; when the
proxy opens and either the versions match or the user declines the update,
it returns normally with the new handle stored. Only in the mismatch path,
when the post-flash reconnection leaves the handle `None`, does the
default `light_enabled=true` state application raise an uncaught
`AttributeError` that propagates to the caller. -/
theorem c8_connect_no_raise_off_flash_path (s : PluginState) (e : ConnectEnv)
    (rest : List ConnectEnv) :
    (e.serial_ok = false → connect s (e :: rest) = .ok (s, true))
    ∧ (e.serial_ok = true →
        ((e.remote_version != e.host_version) && e.response_yes) = false →
        connect s (e :: rest)
          = .ok ({ s with dropbot_dx_remote := some e.board_id }, false))
    ∧ (∀ s2 w, e.serial_ok = true →
        ((e.remote_version != e.host_version) && e.response_yes) = true →
        connect { s with dropbot_dx_remote := none } rest = .ok (s2, w) →
        s2.dropbot_dx_remote = none →
        connect s (e :: rest) = .error .attributeError) := by
  obtain ⟨sok, bid, hv, rv, yes⟩ := e
  refine ⟨?_, ?_, ?_⟩
  · intro hsok
    subst hsok
    rfl
  · intro hsok hmis
    subst hsok
    simp only [connect, if_true]
    simp [hmis]
  · intro s2 w hsok hmis hrec hnone
    subst hsok
    simp only [connect, if_true]
    rw [hmis]
    simp only [if_true]
    rw [hrec]
    obtain ⟨t2, d2, b2⟩ := s2
    simp only at hnone
    subst hnone
    rfl

/-- C8 witness. -/
theorem c8_connect_no_raise_off_flash_path_witness :
    connect ⟨none, none, none⟩ [⟨false, 1, 2, 3, true⟩]
      = .ok (⟨none, none, none⟩, true) :=
  (c8_connect_no_raise_off_flash_path ⟨none, none, none⟩ ⟨false, 1, 2, 3, true⟩
      []).1 rfl

/-- C10 (confirmed): `on_plugin_disable` never writes the board-handle
field — it only invokes `terminate()` exactly when connected — so the
whole modelled state is unchanged, `connected()` afterwards still returns
what it did before, and when the board was connected a subsequent
`on_step_run` takes the board-connected branch: its first action is the
`update_state` board call, not the disconnected branch's bare `None`
emission. -/
theorem c10_disable_keeps_connection (s : PluginState) :
    (on_plugin_disable s).1 = s
    ∧ (on_plugin_disable s).2 = s.connected
    ∧ (s.connected = true → ∀ options env,
        ((on_plugin_disable s).1).connected = true
        ∧ (on_step_run (on_plugin_disable s).1 options env).events.head?
            = some (.board ⟨!options.dstat_enabled,
                            some options.magnet_engaged⟩)) := by
  refine ⟨rfl, rfl, ?_⟩
  intro hc options env
  exact ⟨hc, on_step_run_connected_head s options env hc⟩

/-- C10 witness. -/
theorem c10_disable_keeps_connection_witness :
    ((on_plugin_disable ⟨none, none, some 0⟩).1).connected = true
    ∧ (on_step_run (on_plugin_disable ⟨none, none, some 0⟩).1
        ⟨true, false⟩ ⟨true, true, true, 7, 11⟩).events.head?
        = some (.board ⟨!(⟨true, false⟩ : StepOptions).dstat_enabled,
                        some true⟩) :=
  (c10_disable_keeps_connection ⟨none, none, some 0⟩).2.2 rfl
    ⟨true, false⟩ ⟨true, true, true, 7, 11⟩

end DropbotDx
